import Mathlib

/-!
Verification of the Matrio multi-zone amplifier protocol codec
(`custom_components/matriocontrol/matrio_controller.py` and
`analysis/broadcast_decoder.py`) against its natural-language specification.

Byte buffers are modelled as `List Nat` (each element one byte).  Python's
fallible index `packet[i]` is modelled by `readByte` (`List.getD` with default
0); every theorem below only exercises in-bounds reads.  Python functions that
return `False`/`None` before building or sending a packet are modelled as
functions into `Option`, with `none` for every early-validation exit.

Python float expressions of the form `int(a / b * c)` that appear in the
balance codecs were checked by exhaustive enumeration over all 256 byte
values (resp. all in-range UI values) to coincide with the exact integer
floor `a * c / b`; they are embedded as natural-number division.
-/

/-- One byte of a packet, with Python `bytes` indexing semantics restricted
to in-bounds use. -/
def readByte (packet : List Nat) (i : Nat) : Nat := packet.getD i 0

/-- Two-character lower-case hex rendering of a byte, as Python `f"{b:02x}"`. -/
def hexDigitChar (n : Nat) : Char :=
  if n < 10 then Char.ofNat (48 + n) else Char.ofNat (87 + n)

/-- Python `f"UNKNOWN(0x{b:02x})"`. -/
def unknownStr (b : Nat) : String :=
  "UNKNOWN(0x" ++ String.mk [hexDigitChar (b / 16 % 16), hexDigitChar (b % 16)] ++ ")"

/-- Result of `UniversalHNGSyncDecoder.decode_zone`: the decoded per-zone
dictionary, including the raw source bytes kept for diagnostics. -/
structure ZoneData where
  zone_id : Nat
  power : String
  input : String
  volume : Int
  balance : String
  mute : String
  bass : Int
  treble : Int
  raw_power : Nat
  raw_input : Nat
  raw_volume : Nat
  raw_balance : Nat
  raw_mute : Nat
deriving Repr, DecidableEq

/-- `UniversalHNGSyncDecoder.decode_power_state`. -/
def decode_power_state (power : Nat) (packet_size : Nat) : String :=
  if packet_size = 96 then
    if power = 0x02 then "ON"
    else if power = 0x01 then "OFF"
    else unknownStr power
  else
    if power = 0x01 then "ON"
    else if power = 0x02 then "OFF"
    else unknownStr power

/-- `UniversalHNGSyncDecoder.decode_input_selection`: `input_mappings.get`
with an `UNKNOWN(..)` default. -/
def decode_input_selection (input_val : Nat) (input_mappings : Nat → Option String) : String :=
  (input_mappings input_val).getD (unknownStr input_val)

/-- `UniversalHNGSyncDecoder.decode_volume_level`: `max(0, volume - 1)`. -/
def decode_volume_level (volume : Nat) : Int :=
  max 0 ((volume : Int) - 1)

/-- `UniversalHNGSyncDecoder.decode_balance_state`.  The Python interpolation
`int((balance - 0x01) / (0x3d - 0x01) * 200) - 100` equals the integer floor
`(balance - 1) * 200 / 60 - 100` for every byte (checked exhaustively). -/
def decode_balance_state (balance : Nat) (packet_size : Nat) : String :=
  if balance = 0x3d then "MAX Right"
  else if balance = 0x1f then "Default"
  else if balance = 0x01 then "MAX Left"
  else if 0x01 ≤ balance ∧ balance ≤ 0x3d then
    toString ((((balance - 0x01) * 200 / (0x3d - 0x01) : Nat) : Int) - 100)
  else unknownStr balance

/-- `UniversalHNGSyncDecoder.decode_mute_state`. -/
def decode_mute_state (mute : Nat) (packet_size : Nat) : String :=
  if packet_size = 96 then
    if mute = 0x01 then "DEFAULT"
    else if mute = 0x02 then "MUTED"
    else unknownStr mute
  else
    if mute = 0x0d then "DEFAULT"
    else if mute = 0x02 then "MUTED"
    else unknownStr mute

/-- `UniversalHNGSyncDecoder.get_bass_start`. -/
def get_bass_start (hng_start : Nat) (packet_size : Nat) : Nat := hng_start + 26

/-- `UniversalHNGSyncDecoder.get_treble_start`. -/
def get_treble_start (hng_start : Nat) (packet_size : Nat) : Nat := hng_start + 18

/-- Shared bass/treble byte decode: `val - 0x0d if 0x01 <= val <= 0x19 else 0`. -/
def bass_treble_decode (v : Nat) : Int :=
  if 0x01 ≤ v ∧ v ≤ 0x19 then (v : Int) - 0x0d else 0

/-- `UniversalHNGSyncDecoder.decode_bass_treble`. -/
def decode_bass_treble (zone : Nat) (packet : List Nat) (hng_start : Nat)
    (packet_size : Nat) : Int × Int :=
  let bass_start := get_bass_start hng_start packet_size
  let treble_start := get_treble_start hng_start packet_size
  let bass_val := readByte packet (bass_start + zone)
  let treble_val := readByte packet (treble_start + zone)
  (bass_treble_decode bass_val, bass_treble_decode treble_val)

/-- `UniversalHNGSyncDecoder.decode_zone`: reads one byte per field at the
layout-dependent offsets and applies the per-field codecs. -/
def decode_zone (zone : Nat) (packet : List Nat) (hng_start : Nat)
    (packet_size : Nat) (input_mappings : Nat → Option String) : ZoneData :=
  let input_start := if packet_size = 96 then hng_start + 2 else hng_start + 2
  let input_val := readByte packet (input_start + zone)
  let volume_start := if packet_size = 96 then hng_start + 10 else hng_start + 10
  let volume_val := readByte packet (volume_start + zone)
  let power_start := if packet_size = 96 then hng_start + 44 else hng_start + 50
  let power_val := readByte packet (power_start + zone)
  let balance_start := hng_start + 34
  let balance_val := readByte packet (balance_start + zone)
  let mute_start := if packet_size = 96 then hng_start + 52 else hng_start + 28
  let mute_val := readByte packet (mute_start + zone)
  let bt := decode_bass_treble zone packet hng_start packet_size
  { zone_id := zone + 1
    power := decode_power_state power_val packet_size
    input := decode_input_selection input_val input_mappings
    volume := decode_volume_level volume_val
    balance := decode_balance_state balance_val packet_size
    mute := decode_mute_state mute_val packet_size
    bass := bt.1
    treble := bt.2
    raw_power := power_val
    raw_input := input_val
    raw_volume := volume_val
    raw_balance := balance_val
    raw_mute := mute_val }

/-- Layout detection of `decode_hng_sync_packet`: signature `82 0c` forces
section start 0; otherwise length 96 gives 28, length 68 gives 0, anything
else falls back to 0. -/
def hng_section_start (packet : List Nat) : Nat :=
  if packet.take 2 = [0x82, 0x0c] then 0
  else if packet.length = 96 then 28
  else if packet.length = 68 then 0
  else 0

/-- `UniversalHNGSyncDecoder.decode_hng_sync_packet`: the zones dictionary,
keyed 1..8 in order. -/
def decode_hng_sync_packet (packet : List Nat)
    (input_mappings : Nat → Option String) : List ZoneData :=
  (List.range 8).map fun zone =>
    decode_zone zone packet (hng_section_start packet) packet.length input_mappings

/-- **C1.** For every sync packet buffer, section start and zone index, the
sync decoder reads the zone's field byte at `sectionStart + offset + z` with
offsets: input +2, volume +10, treble +18, bass +26 and balance +34 under
both layouts, power +44 under the 96-byte layout and +50 under the 68-byte
layout, and mute +52 under the 96-byte layout and +28 under the 68-byte
layout. -/
theorem decode_zone_field_offsets (packet : List Nat) (hng_start zone : Nat)
    (im : Nat → Option String) :
    ((decode_zone zone packet hng_start 96 im).raw_input
        = readByte packet (hng_start + 2 + zone)
      ∧ (decode_zone zone packet hng_start 96 im).raw_volume
        = readByte packet (hng_start + 10 + zone)
      ∧ (decode_zone zone packet hng_start 96 im).treble
        = bass_treble_decode (readByte packet (hng_start + 18 + zone))
      ∧ (decode_zone zone packet hng_start 96 im).bass
        = bass_treble_decode (readByte packet (hng_start + 26 + zone))
      ∧ (decode_zone zone packet hng_start 96 im).raw_balance
        = readByte packet (hng_start + 34 + zone)
      ∧ (decode_zone zone packet hng_start 96 im).raw_power
        = readByte packet (hng_start + 44 + zone)
      ∧ (decode_zone zone packet hng_start 96 im).raw_mute
        = readByte packet (hng_start + 52 + zone))
    ∧ ((decode_zone zone packet hng_start 68 im).raw_input
        = readByte packet (hng_start + 2 + zone)
      ∧ (decode_zone zone packet hng_start 68 im).raw_volume
        = readByte packet (hng_start + 10 + zone)
      ∧ (decode_zone zone packet hng_start 68 im).treble
        = bass_treble_decode (readByte packet (hng_start + 18 + zone))
      ∧ (decode_zone zone packet hng_start 68 im).bass
        = bass_treble_decode (readByte packet (hng_start + 26 + zone))
      ∧ (decode_zone zone packet hng_start 68 im).raw_balance
        = readByte packet (hng_start + 34 + zone)
      ∧ (decode_zone zone packet hng_start 68 im).raw_power
        = readByte packet (hng_start + 50 + zone)
      ∧ (decode_zone zone packet hng_start 68 im).raw_mute
        = readByte packet (hng_start + 28 + zone)) := by
  simp [decode_zone, decode_bass_treble, get_bass_start, get_treble_start]

/-- One decoded zone-change event, the dictionaries returned by
`BroadcastDecoder._decode_command_data` (`analysis/broadcast_decoder.py`). -/
inductive ChangeEvent where
  | powerEv (zones : List Nat) (power_on : Bool)
  | volumeEv (zones : List Nat) (volume : Int)
  | muteEv (zones : List Nat) (muted : Bool)
  | inputEv (zones : List Nat) (input_id : Nat) (input_name : String)
  | balanceEv (zones : List Nat) (balance : Int)
  | bassEv (zones : List Nat) (bass : Int)
  | trebleEv (zones : List Nat) (treble : Int)
  | totalVolumeEv (zones : List Nat) (volume : Int)
deriving Repr, DecidableEq

/-- `BroadcastDecoder._decode_balance_value`: the broadcast-path balance
codec.  Out-of-range bytes decode to `0` here (not to an Unknown marker).
The Python interpolation is embedded as its verified integer floor. -/
def broadcast_decode_balance_value (value : Nat) : Int :=
  if value = 0x3d then 100
  else if value = 0x1f then 0
  else if value = 0x01 then -100
  else if 0x01 ≤ value ∧ value ≤ 0x3d then
    (((value - 0x01) * 200 / (0x3d - 0x01) : Nat) : Int) - 100
  else 0

/-- `BroadcastDecoder._decode_command_data`: value byte, 7-byte zone pattern
(`0x01` at position i marks zone i+1), command-byte dispatch. -/
def decode_command_data (command : Nat) (data : List Nat)
    (input_mappings : Nat → Option String) : Option ChangeEvent :=
  if data.length < 8 then none
  else
    let value := readByte data 0
    let zone_pattern := (data.take 8).drop 1
    let affected_zones := zone_pattern.enum.filterMap fun iv =>
      if iv.2 = 0x01 then some (iv.1 + 1) else none
    if command = 0x08 then some (.powerEv affected_zones (value = 0x02))
    else if command = 0x01 then some (.volumeEv affected_zones (max 0 ((value : Int) - 1)))
    else if command = 0x0e then some (.muteEv affected_zones (value = 0x02))
    else if command = 0x0d then
      some (.inputEv affected_zones value
        ((input_mappings value).getD ("Input " ++ toString value)))
    else if command = 0x05 then
      some (.balanceEv affected_zones (broadcast_decode_balance_value value))
    else if command = 0x03 then some (.bassEv affected_zones (bass_treble_decode value))
    else if command = 0x02 then some (.trebleEv affected_zones (bass_treble_decode value))
    else if command = 0x10 then some (.totalVolumeEv affected_zones (max 0 ((value : Int) - 1)))
    else none

/-- `BroadcastDecoder._decode_direct_broadcast_packet`: command byte at
index 1, payload `packet[2:10]`, length must be at least 11. -/
def decode_direct_broadcast_packet (packet : List Nat)
    (input_mappings : Nat → Option String) : Option ChangeEvent :=
  if packet.length < 11 then none
  else decode_command_data (readByte packet 1) ((packet.drop 2).take 8) input_mappings

/-- The literal ASCII tag `MCU+PAS+`. -/
def mcu_pas_tag : List Nat := [0x4d, 0x43, 0x55, 0x2b, 0x50, 0x41, 0x53, 0x2b]

/-- `BroadcastDecoder._decode_command_echo_packet`: skip the 20-byte
envelope, require the `MCU+PAS+` tag, skip the marker byte, then decode the
command byte and the 8-byte payload. -/
def decode_command_echo_packet (packet : List Nat)
    (input_mappings : Nat → Option String) : Option ChangeEvent :=
  if packet.length < 20 then none
  else
    let payload := packet.drop 20
    if payload.length < 10 ∨ payload.take 8 ≠ mcu_pas_tag then none
    else
      let command_part := payload.drop 8
      if command_part.length < 2 then none
      else
        let command := readByte command_part 1
        if command_part.length < 10 then none
        else decode_command_data command ((command_part.drop 2).take 8) input_mappings

/-- `BroadcastDecoder.decode_packet` (the spec's `decode_change`): dispatch
on the `18 96 18 20` echo signature, then on a leading `0x82`. -/
def decode_packet (packet : List Nat)
    (input_mappings : Nat → Option String) : Option ChangeEvent :=
  if 4 ≤ packet.length ∧ packet.take 4 = [0x18, 0x96, 0x18, 0x20] then
    decode_command_echo_packet packet input_mappings
  else if 3 ≤ packet.length ∧ readByte packet 0 = 0x82 then
    decode_direct_broadcast_packet packet input_mappings
  else none

/-- **C2 counterexample.** At byte `0x03` both balance decoders return the
truncated value -94, not the claim's `round((3-1)/60*200)-100 = -93`; and at
byte `0x3e` (outside `[0x01,0x3d]`) the broadcast-path decoder returns `0`,
not an Unknown marker. -/
theorem balance_claim_counterexample :
    decode_balance_state 0x03 68 ≠ "-93"
    ∧ decode_balance_state 0x03 68 = "-94"
    ∧ broadcast_decode_balance_value 0x03 = -94
    ∧ broadcast_decode_balance_value 0x3e = 0 := by
  refine ⟨by decide, rfl, rfl, rfl⟩

/-- **C2 (amended).** Both balance decode paths map `0x01` to MaxLeft(-100),
`0x1f` to Center(0), `0x3d` to MaxRight(100); every other byte in
`[0x01,0x3d]` decodes, in both paths, to the truncated interpolation
`⌊(byte-1)*200/(0x3d-1)⌋ - 100` (truncation, not rounding); for bytes
outside `[0x01,0x3d]` the sync-packet decoder returns `Unknown(byte)` while
the broadcast/echo decoder returns `0`.  The sync-path decode ignores the
layout argument. -/
theorem balance_codec_characterization (b sz : Nat) :
    decode_balance_state b sz = decode_balance_state b 68
    ∧ (b = 0x01 →
        decode_balance_state b 68 = "MAX Left" ∧ broadcast_decode_balance_value b = -100)
    ∧ (b = 0x1f →
        decode_balance_state b 68 = "Default" ∧ broadcast_decode_balance_value b = 0)
    ∧ (b = 0x3d →
        decode_balance_state b 68 = "MAX Right" ∧ broadcast_decode_balance_value b = 100)
    ∧ (0x01 ≤ b → b ≤ 0x3d → b ≠ 0x01 → b ≠ 0x1f → b ≠ 0x3d →
        decode_balance_state b 68 = toString ((((b - 1) * 200 / 60 : Nat) : Int) - 100)
        ∧ broadcast_decode_balance_value b = (((b - 1) * 200 / 60 : Nat) : Int) - 100)
    ∧ ((b < 0x01 ∨ 0x3d < b) →
        decode_balance_state b 68 = unknownStr b ∧ broadcast_decode_balance_value b = 0) := by
  refine ⟨rfl, ?_, ?_, ?_, ?_, ?_⟩
  · rintro rfl; exact ⟨rfl, rfl⟩
  · rintro rfl; exact ⟨rfl, rfl⟩
  · rintro rfl; exact ⟨rfl, rfl⟩
  · intro h1 h61 hn1 hn1f hn3d
    constructor
    · rw [decode_balance_state, if_neg hn3d, if_neg hn1f, if_neg hn1, if_pos ⟨h1, h61⟩]
    · rw [broadcast_decode_balance_value, if_neg hn3d, if_neg hn1f, if_neg hn1,
        if_pos ⟨h1, h61⟩]
  · intro h
    constructor
    · rw [decode_balance_state, if_neg (by omega), if_neg (by omega), if_neg (by omega),
        if_neg (by omega)]
    · rw [broadcast_decode_balance_value, if_neg (by omega), if_neg (by omega),
        if_neg (by omega), if_neg (by omega)]

/-- Concrete instantiation of `balance_codec_characterization` at byte
`0x02`, discharging the range-branch hypotheses. -/
theorem balance_codec_characterization_witness :
    decode_balance_state 0x02 68 = toString ((((0x02 - 1) * 200 / 60 : Nat) : Int) - 100)
    ∧ broadcast_decode_balance_value 0x02 = (((0x02 - 1) * 200 / 60 : Nat) : Int) - 100 :=
  (balance_codec_characterization 0x02 68).2.2.2.2.1 (by decide) (by decide) (by decide)
    (by decide) (by decide)

/-- The literal 68-byte sync packet quoted in the spec's testable
properties. -/
def c3_packet : List Nat :=
  [0x82, 0x0c, 0x01, 0x04, 0x03, 0x02, 0x08, 0x08, 0x08, 0x04, 0x05, 0x0a,
   0x01, 0x27, 0x1d, 0x08, 0x05, 0x05, 0x0d, 0x0d, 0x0d, 0x0d, 0x0d, 0x0d,
   0x0d, 0x0d, 0x0d, 0x0d, 0x0d, 0x0d, 0x0d, 0x0d, 0x0d, 0x0d, 0x1f, 0x3d,
   0x1f, 0x1f, 0x1f, 0x1f, 0x1f, 0x1f, 0x02, 0x01, 0x02, 0x01, 0x02, 0x01,
   0x01, 0x01, 0x01, 0x01, 0x01, 0x01, 0x01, 0x02, 0x01, 0x01, 0x01, 0x02,
   0x40, 0x18, 0x0c, 0x14, 0xff, 0xff, 0xcc, 0x26]

/-- **C3 counterexample.** Zone 1 of the literal 68-byte packet carries
volume wire byte `0x05` (UI volume 4) at section offset 10, not the claimed
wire byte `0x08` / UI volume 7. -/
theorem c3_packet_volume_counterexample :
    (decode_zone 0 c3_packet 0 68 fun _ => none).raw_volume = 0x05
    ∧ (decode_zone 0 c3_packet 0 68 fun _ => none).raw_volume ≠ 0x08
    ∧ (decode_zone 0 c3_packet 0 68 fun _ => none).volume = 4
    ∧ (decode_zone 0 c3_packet 0 68 fun _ => none).volume ≠ 7
    ∧ (decode_hng_sync_packet c3_packet fun _ => none).head?
        = some (decode_zone 0 c3_packet 0 68 fun _ => none) := by
  refine ⟨rfl, by decide, rfl, by decide, rfl⟩

/-- **C3 (amended).** Decoding the literal 68-byte sync packet yields, for
zone 1: input raw byte `0x01`, volume wire byte `0x05` and therefore UI
volume 4, power byte `0x01` decoded as On under the 68-byte layout, and mute
byte `0x0d` (read from section offset 28) decoded as Default per the
68-byte mute table; the packet routes through the decoder entry point with
section start 0 and the 68-byte field table. -/
theorem c3_packet_zone1_decode :
    (decode_zone 0 c3_packet 0 68 fun _ => none).raw_input = 0x01
    ∧ (decode_zone 0 c3_packet 0 68 fun _ => none).raw_volume = 0x05
    ∧ (decode_zone 0 c3_packet 0 68 fun _ => none).volume = 4
    ∧ (decode_zone 0 c3_packet 0 68 fun _ => none).raw_power = 0x01
    ∧ (decode_zone 0 c3_packet 0 68 fun _ => none).power = "ON"
    ∧ (decode_zone 0 c3_packet 0 68 fun _ => none).raw_mute = 0x0d
    ∧ (decode_zone 0 c3_packet 0 68 fun _ => none).mute = "DEFAULT"
    ∧ (decode_hng_sync_packet c3_packet fun _ => none).head?
        = some (decode_zone 0 c3_packet 0 68 fun _ => none) := by
  exact ⟨rfl, rfl, rfl, rfl, rfl, rfl, rfl, rfl⟩

/-- The 10-byte buffer from the spec's `decode_change` testable property. -/
def c4_buffer : List Nat :=
  [0x82, 0x08, 0x02, 0x01, 0x02, 0x02, 0x02, 0x02, 0x02, 0x02]

/-- **C4 counterexample.** `decode_change` on the 10-byte buffer
`82 08 02 01 02 02 02 02 02 02` returns `None`: the direct-broadcast path
requires length at least 11, so no Power event is produced. -/
theorem c4_ten_byte_buffer_decodes_to_none :
    decode_packet c4_buffer (fun _ => none) = none := by
  rfl

/-- **C4 (amended).** `decode_change` on the 10-byte buffer extended by one
trailer byte to the 11-byte minimum direct-broadcast length yields a Power
event with affected zones exactly `[1]` and `power_on = true`. -/
theorem c4_eleven_byte_buffer_decodes_power :
    decode_packet (c4_buffer ++ [0xff]) (fun _ => none)
      = some (.powerEv [1] true) := by
  rfl

/-- Power-on zone-selection field from `_send_power_command`: 11 bytes of
`0x02` with the entry at index `zone_id` set to `0x01`. -/
def power_on_pattern (zone_id : Nat) : List Nat :=
  (List.replicate 11 0x02).set zone_id 0x01

/-- Power-off zone-selection field from `_send_power_command`: 9 bytes of
`0x02` with the entries at index 0 and index `zone_id` set to `0x01`. -/
def power_off_pattern (zone_id : Nat) : List Nat :=
  ((List.replicate 9 0x02).set 0 0x01).set zone_id 0x01

/-- The 8-byte zone pattern shared by the volume/mute/input/audio encoders:
`0x01` at index `zone_id - 1`, `0x02` elsewhere. -/
def zone_select_pattern (zone_id : Nat) : List Nat :=
  (List.replicate 8 0x02).set (zone_id - 1) 0x01

/-- `_send_power_command`: zone validation, then one of two structurally
different frames.  `none` models every return of `False` before a packet is
built and sent. -/
def send_power_command (zone_id : Int) (power_on : Bool) : Option (List Nat) :=
  if zone_id < 1 ∨ 8 < zone_id then none
  else if power_on then
    some ([0x18, 0x96, 0x18, 0x20, 0x18, 0x00, 0x00, 0x00, 0xab, 0x04]
      ++ List.replicate 10 0x00 ++ mcu_pas_tag ++ [0x82, 0x08]
      ++ power_on_pattern zone_id.toNat ++ [0xff, 0xcc, 0x26])
  else
    some ([0x18, 0x96, 0x18, 0x20, 0x16, 0x00, 0x00, 0x00, 0xaa, 0x04]
      ++ List.replicate 10 0x00 ++ mcu_pas_tag ++ [0x82, 0x08]
      ++ power_off_pattern zone_id.toNat ++ [0xff, 0xcc, 0x26])

/-- `adjusted_volume = max(1, volume + 1)` from `_send_volume_command`: the
UI-to-wire volume codec. -/
def adjusted_volume (volume : Int) : Int := max 1 (volume + 1)

/-- `_send_volume_command`: zone and range validation, then the `82 01`
frame carrying the adjusted volume byte and the 8-byte zone pattern. -/
def send_volume_command (zone_id volume : Int) : Option (List Nat) :=
  if zone_id < 1 ∨ 8 < zone_id then none
  else if volume < 0 ∨ 38 < volume then none
  else
    some ([0x18, 0x96, 0x18, 0x20, 0x16, 0x00, 0x00, 0x00, 0xb6, 0x04]
      ++ List.replicate 10 0x00 ++ mcu_pas_tag
      ++ [0x82, 0x01, (adjusted_volume volume).toNat]
      ++ zone_select_pattern zone_id.toNat ++ [0xff, 0xcc, 0x26])

/-- `_send_mute_command`: zone validation, then the `82 0e` frame with state
byte `0x02` (mute, command code `b1 04`) or `0x01` (unmute, `b0 04`). -/
def send_mute_command (zone_id : Int) (mute : Bool) : Option (List Nat) :=
  if zone_id < 1 ∨ 8 < zone_id then none
  else
    some ([0x18, 0x96, 0x18, 0x20, 0x16, 0x00, 0x00, 0x00]
      ++ (if mute then [0xb1, 0x04] else [0xb0, 0x04])
      ++ List.replicate 10 0x00 ++ mcu_pas_tag
      ++ [0x82, 0x0e, if mute then 0x02 else 0x01]
      ++ zone_select_pattern zone_id.toNat ++ [0xff, 0xcc, 0x26])

/-- `_send_input_command`: zone and input validation, then the `82 0d` frame
with the raw 1-based input id. -/
def send_input_command (zone_id input_id : Int) : Option (List Nat) :=
  if zone_id < 1 ∨ 8 < zone_id then none
  else if input_id < 1 ∨ 8 < input_id then none
  else
    some ([0x18, 0x96, 0x18, 0x20, 0x16, 0x00, 0x00, 0x00, 0xb6, 0x04]
      ++ List.replicate 10 0x00 ++ mcu_pas_tag
      ++ [0x82, 0x0d, input_id.toNat]
      ++ zone_select_pattern zone_id.toNat ++ [0xff, 0xcc, 0x26])

/-- Balance UI-to-wire conversion from `_send_audio_control_command`: exact
anchors, then `int`-truncated interpolation, clamped to `[0x01, 0x3d]`.
The float truncations agree with these natural-number floors on every
in-range input (checked exhaustively), and the final clamp absorbs the
difference everywhere else. -/
def balance_ui_to_wire (value : Int) : Nat :=
  if value = -100 then 0x01
  else if value = 0 then 0x1f
  else if value = 100 then 0x3d
  else if value < 0 then
    max 0x01 (min 0x3d (0x01 + (value + 100).toNat * (0x1f - 0x01) / 100))
  else
    max 0x01 (min 0x3d (0x1f + value.toNat * (0x3d - 0x1f) / 100))

/-- `_ui_value_to_hex_limited`: clamp to `[-12, 12]`, add `0x0d`, clamp to
`[0x01, 0x19]`. -/
def ui_value_to_hex_limited (ui_value : Int) : Nat :=
  (max 0x01 (min 0x19 (max (-12) (min 12 ui_value) + 13))).toNat

/-- The `command_codes` dictionary of `_send_audio_control_command`. -/
def audio_command_code (control_type : String) : Option Nat :=
  if control_type = "balance" then some 0x05
  else if control_type = "bass" then some 0x03
  else if control_type = "treble" then some 0x02
  else none

/-- The `e3 04` audio-control frame built by `_send_audio_control_command`. -/
def audio_control_packet (code hex zone : Nat) : List Nat :=
  [0x18, 0x96, 0x18, 0x20, 0x16, 0x00, 0x00, 0x00, 0xe3, 0x04]
    ++ List.replicate 10 0x00 ++ mcu_pas_tag ++ [0x82, code, hex]
    ++ zone_select_pattern zone ++ [0xff, 0xcc, 0x26]

/-- `_send_audio_control_command`: zone validation, command-code lookup,
per-control value-range validation, then the frame. -/
def send_audio_control_command (zone_id : Int) (control_type : String)
    (value : Int) : Option (List Nat) :=
  if zone_id < 1 ∨ 8 < zone_id then none
  else
    match audio_command_code control_type with
    | none => none
    | some code =>
      if control_type = "balance" then
        if value < -100 ∨ 100 < value then none
        else some (audio_control_packet code (balance_ui_to_wire value) zone_id.toNat)
      else
        if value < -12 ∨ 12 < value then none
        else some (audio_control_packet code (ui_value_to_hex_limited value) zone_id.toNat)

/-- **C5.** For every UI volume `v` in 0..38, decoding the encoder's wire
byte recovers `v`: the encoder computes `wire = max(1, v + 1)` and the
decoder computes `ui = max(0, byte - 1)`. -/
theorem volume_roundtrip (v : Int) (h0 : 0 ≤ v) (h38 : v ≤ 38) :
    decode_volume_level (adjusted_volume v).toNat = v := by
  rw [adjusted_volume, max_eq_right (by omega : (1 : Int) ≤ v + 1),
    decode_volume_level, Int.toNat_of_nonneg (by omega)]
  omega

/-- Concrete instantiation of `volume_roundtrip` at UI volume 20. -/
theorem volume_roundtrip_witness :
    decode_volume_level (adjusted_volume 20).toNat = 20 :=
  volume_roundtrip 20 (by decide) (by decide)

/-- **C6.** Every encoder (power, volume, mute, input, balance, bass,
treble) rejects a zone id outside 1..8 with no packet produced, and
out-of-range control values (volume outside 0..38, balance outside
-100..100, bass/treble outside -12..12) are rejected rather than silently
clamped. -/
theorem encoder_validation (z v : Int) (hz : z < 1 ∨ 8 < z) :
    send_power_command z true = none
    ∧ send_power_command z false = none
    ∧ send_volume_command z v = none
    ∧ send_mute_command z true = none
    ∧ send_mute_command z false = none
    ∧ send_input_command z 1 = none
    ∧ send_audio_control_command z "balance" v = none
    ∧ send_audio_control_command z "bass" v = none
    ∧ send_audio_control_command z "treble" v = none
    ∧ (∀ z' v' : Int, (v' < 0 ∨ 38 < v') → send_volume_command z' v' = none)
    ∧ (∀ z' v' : Int, (v' < -100 ∨ 100 < v') →
        send_audio_control_command z' "balance" v' = none)
    ∧ (∀ z' v' : Int, (v' < -12 ∨ 12 < v') →
        send_audio_control_command z' "bass" v' = none)
    ∧ (∀ z' v' : Int, (v' < -12 ∨ 12 < v') →
        send_audio_control_command z' "treble" v' = none) := by
  refine ⟨?_, ?_, ?_, ?_, ?_, ?_, ?_, ?_, ?_, ?_, ?_, ?_, ?_⟩
  · rw [send_power_command, if_pos hz]
  · rw [send_power_command, if_pos hz]
  · rw [send_volume_command, if_pos hz]
  · rw [send_mute_command, if_pos hz]
  · rw [send_mute_command, if_pos hz]
  · rw [send_input_command, if_pos hz]
  · rw [send_audio_control_command, if_pos hz]
  · rw [send_audio_control_command, if_pos hz]
  · rw [send_audio_control_command, if_pos hz]
  · intro z' v' hv
    rw [send_volume_command]
    by_cases hz' : z' < 1 ∨ 8 < z'
    · rw [if_pos hz']
    · rw [if_neg hz', if_pos hv]
  · intro z' v' hv
    rw [send_audio_control_command]
    by_cases hz' : z' < 1 ∨ 8 < z'
    · rw [if_pos hz']
    · rw [if_neg hz']
      show (if "balance" = "balance" then _ else _) = none
      rw [if_pos rfl, if_pos hv]
  · intro z' v' hv
    rw [send_audio_control_command]
    by_cases hz' : z' < 1 ∨ 8 < z'
    · rw [if_pos hz']
    · rw [if_neg hz']
      show (if "bass" = "balance" then _ else _) = none
      rw [if_neg (by decide), if_pos hv]
  · intro z' v' hv
    rw [send_audio_control_command]
    by_cases hz' : z' < 1 ∨ 8 < z'
    · rw [if_pos hz']
    · rw [if_neg hz']
      show (if "treble" = "balance" then _ else _) = none
      rw [if_neg (by decide), if_pos hv]

/-- Concrete instantiations of `encoder_validation` at zone 0 and zone 9. -/
theorem encoder_validation_witness :
    send_power_command 0 true = none ∧ send_volume_command 9 39 = none :=
  ⟨(encoder_validation 0 0 (by decide)).1,
   (encoder_validation 9 39 (by decide)).2.2.1⟩

/-- **C7.** For a zone id in 1..8, the power-on frame carries an 11-byte
zone-selection field with the entry at the zone's id (used directly as the
0-based array index, not id-1) set to `0x01` and every other position
`0x02`; the power-off frame carries a 9-byte field with position 0 and the
zone-id position both `0x01` and every other position `0x02`; and the two
target states yield structurally different frames. -/
theorem power_pattern_structure (z : Nat) (h1 : 1 ≤ z) (h8 : z ≤ 8) :
    (power_on_pattern z).length = 11
    ∧ (power_on_pattern z).getD z 0 = 0x01
    ∧ (∀ i, i < 11 → i ≠ z → (power_on_pattern z).getD i 0 = 0x02)
    ∧ (power_off_pattern z).length = 9
    ∧ (power_off_pattern z).getD 0 0 = 0x01
    ∧ (power_off_pattern z).getD z 0 = 0x01
    ∧ (∀ i, i < 9 → i ≠ 0 → i ≠ z → (power_off_pattern z).getD i 0 = 0x02)
    ∧ send_power_command (z : Int) true ≠ send_power_command (z : Int) false := by
  interval_cases z <;> exact ⟨rfl, rfl, by decide, rfl, rfl, rfl, by decide, by decide⟩

/-- Concrete instantiation of `power_pattern_structure` at zone 3. -/
theorem power_pattern_structure_witness :
    (power_on_pattern 3).getD 3 0 = 0x01
    ∧ (power_off_pattern 3).getD 0 0 = 0x01
    ∧ send_power_command 3 true ≠ send_power_command 3 false :=
  ⟨(power_pattern_structure 3 (by decide) (by decide)).2.1,
   (power_pattern_structure 3 (by decide) (by decide)).2.2.2.2.1,
   (power_pattern_structure 3 (by decide) (by decide)).2.2.2.2.2.2.2⟩

/-- Reads past a 28-byte prefix land in the suffix. -/
theorem readByte_append_28 (env sec : List Nat) (he : env.length = 28) (i : Nat) :
    readByte (env ++ sec) (28 + i) = readByte sec i := by
  have h28 : env.length ≤ 28 + i := by omega
  rw [readByte, readByte, List.getD_append_right _ _ _ _ h28, he,
    Nat.add_sub_cancel_left]

/-- **C9.** For every 68-byte sync section and every 28-byte envelope not
carrying the `82 0c` signature in front, decoding the section directly (68-byte
layout, section start 0) and decoding the 96-byte packet formed by prefixing
the envelope (96-byte layout, section start 28) produce identical decoded
per-zone input, volume, treble, bass and balance for every zone; the decoder
entry point routes the two buffers to exactly those layouts.  (Power and mute
are the two fields whose encodings are intentionally inverted between the
layouts and are not constrained here.) -/
theorem sync_layout_equivalence (env sec : List Nat) (im : Nat → Option String)
    (he : env.length = 28) (hs : sec.length = 68)
    (hsig : (env ++ sec).take 2 ≠ [0x82, 0x0c]) (z : Nat) (hz : z < 8) :
    ((decode_zone z sec 0 68 im).input = (decode_zone z (env ++ sec) 28 96 im).input
      ∧ (decode_zone z sec 0 68 im).volume = (decode_zone z (env ++ sec) 28 96 im).volume
      ∧ (decode_zone z sec 0 68 im).treble = (decode_zone z (env ++ sec) 28 96 im).treble
      ∧ (decode_zone z sec 0 68 im).bass = (decode_zone z (env ++ sec) 28 96 im).bass
      ∧ (decode_zone z sec 0 68 im).balance = (decode_zone z (env ++ sec) 28 96 im).balance)
    ∧ decode_hng_sync_packet sec im
        = (List.range 8).map (fun zone => decode_zone zone sec 0 68 im)
    ∧ decode_hng_sync_packet (env ++ sec) im
        = (List.range 8).map (fun zone => decode_zone zone (env ++ sec) 28 96 im) := by
  have k : ∀ i j, 28 + i = j → readByte (env ++ sec) j = readByte sec i := by
    intro i j hij
    rw [← hij, readByte_append_28 env sec he]
  have k2 : readByte (env ++ sec) (30 + z) = readByte sec (2 + z) := k _ _ (by omega)
  have k10 : readByte (env ++ sec) (38 + z) = readByte sec (10 + z) := k _ _ (by omega)
  have k18 : readByte (env ++ sec) (46 + z) = readByte sec (18 + z) := k _ _ (by omega)
  have k26 : readByte (env ++ sec) (54 + z) = readByte sec (26 + z) := k _ _ (by omega)
  have k34 : readByte (env ++ sec) (62 + z) = readByte sec (34 + z) := k _ _ (by omega)
  have hss68 : hng_section_start sec = 0 := by
    rw [hng_section_start, hs]
    split <;> norm_num
  have hss96 : hng_section_start (env ++ sec) = 28 := by
    have hlen : (env ++ sec).length = 96 := by
      rw [List.length_append, he, hs]
    rw [hng_section_start, if_neg hsig, if_pos hlen]
  have hlen96 : (env ++ sec).length = 96 := by
    rw [List.length_append, he, hs]
  refine ⟨⟨?_, ?_, ?_, ?_, ?_⟩, ?_, ?_⟩
  · simp only [decode_zone]
    norm_num [k2]
  · simp only [decode_zone]
    norm_num [k10]
  · simp only [decode_zone, decode_bass_treble, get_treble_start, get_bass_start]
    norm_num [k18]
  · simp only [decode_zone, decode_bass_treble, get_treble_start, get_bass_start]
    norm_num [k26]
  · simp only [decode_zone]
    norm_num [k34, decode_balance_state]
  · rw [decode_hng_sync_packet, hss68, hs]
  · rw [decode_hng_sync_packet, hss96, hlen96]

/-- A generic 28-byte envelope (outbound-ack header plus padding). -/
def c9_envelope : List Nat := [0x18, 0x96, 0x18, 0x20] ++ List.replicate 24 0x00

/-- Concrete instantiation of `sync_layout_equivalence`: the literal 68-byte
section against the same section behind a 28-byte envelope. -/
theorem sync_layout_equivalence_witness :
    (decode_zone 0 c3_packet 0 68 fun _ => none).volume
      = (decode_zone 0 (c9_envelope ++ c3_packet) 28 96 fun _ => none).volume
    ∧ (decode_zone 0 c3_packet 0 68 fun _ => none).balance
      = (decode_zone 0 (c9_envelope ++ c3_packet) 28 96 fun _ => none).balance
    ∧ decode_hng_sync_packet (c9_envelope ++ c3_packet) (fun _ => none)
      = (List.range 8).map
          (fun zone => decode_zone zone (c9_envelope ++ c3_packet) 28 96 fun _ => none) :=
  ⟨(sync_layout_equivalence c9_envelope c3_packet (fun _ => none) (by decide) (by decide)
      (by decide) 0 (by decide)).1.2.1,
   (sync_layout_equivalence c9_envelope c3_packet (fun _ => none) (by decide) (by decide)
      (by decide) 0 (by decide)).1.2.2.2.2,
   (sync_layout_equivalence c9_envelope c3_packet (fun _ => none) (by decide) (by decide)
      (by decide) 0 (by decide)).2.2⟩

/-- Reading through `List.drop` shifts the index. -/
theorem readByte_drop (l : List Nat) (a j : Nat) :
    readByte (l.drop a) j = readByte l (a + j) := by
  show ((l.drop a).get? j).getD 0 = (l.get? (a + j)).getD 0
  rw [List.get?_drop]

/-- Equal-length buffers that agree on a window have equal slices of it. -/
theorem slice_eq_of_agree (p q : List Nat) (a n : Nat)
    (hlen : p.length = q.length)
    (h : ∀ i, i < p.length → a ≤ i → i < a + n → readByte p i = readByte q i) :
    (p.drop a).take n = (q.drop a).take n := by
  apply List.ext_get?
  intro j
  rw [List.get?_take_eq_if, List.get?_take_eq_if, List.get?_drop, List.get?_drop]
  by_cases hj : j < n
  · rw [if_pos hj, if_pos hj]
    by_cases hb : a + j < p.length
    · cases hpv : p.get? (a + j) with
      | none => rw [List.get?_eq_none] at hpv; omega
      | some x =>
        cases hqv : q.get? (a + j) with
        | none => rw [List.get?_eq_none] at hqv; omega
        | some y =>
          have h1 := h (a + j) hb (by omega) (by omega)
          rw [show readByte p (a + j) = (p.get? (a + j)).getD 0 from rfl,
            show readByte q (a + j) = (q.get? (a + j)).getD 0 from rfl,
            hpv, hqv] at h1
          simpa using h1
    · rw [List.get?_eq_none.mpr (by omega), List.get?_eq_none.mpr (by omega)]
  · rw [if_neg hj, if_neg hj]

/-- **C10.** Two buffers of equal length that both start with the
`18 96 18 20` echo header and carry the `MCU+PAS+` tag at offset 20, and that
agree everywhere except possibly at offset 28 (the position of the fixed
`0x82` marker), decode to the same result: the echo decoder skips the marker
byte without validating it, so a packet with a non-`0x82` byte there still
decodes to an event. -/
theorem echo_marker_byte_ignored (p q : List Nat) (im : Nat → Option String)
    (hlen : p.length = q.length)
    (hagree : ∀ i, i < p.length → i ≠ 28 → readByte p i = readByte q i)
    (hhdr : p.take 4 = [0x18, 0x96, 0x18, 0x20])
    (htag : (p.drop 20).take 8 = mcu_pas_tag) :
    decode_packet p im = decode_packet q im := by
  have e4 : p.take 4 = q.take 4 := by
    have h := slice_eq_of_agree p q 0 4 hlen (fun i hi _ h4 => hagree i hi (by omega))
    simpa using h
  have etag : (p.drop 20).take 8 = (q.drop 20).take 8 :=
    slice_eq_of_agree p q 20 8 hlen (fun i hi h20 h28 => hagree i hi (by omega))
  have ecmd : readByte ((p.drop 20).drop 8) 1 = readByte ((q.drop 20).drop 8) 1 := by
    rw [readByte_drop, readByte_drop, readByte_drop, readByte_drop]
    by_cases h29 : 20 + (8 + 1) < p.length
    · exact hagree _ h29 (by omega)
    · rw [readByte, readByte, List.getD_eq_default _ _ (by omega),
        List.getD_eq_default _ _ (by omega)]
  have edata : (((p.drop 20).drop 8).drop 2).take 8
      = (((q.drop 20).drop 8).drop 2).take 8 := by
    rw [List.drop_drop, List.drop_drop, List.drop_drop, List.drop_drop]
    exact slice_eq_of_agree p q (2 + (8 + 20)) 8 hlen
      (fun i hi h30 h38 => hagree i hi (by omega))
  have hp4 : 4 ≤ p.length := by
    have h := congrArg List.length hhdr
    rw [List.length_take] at h
    simp at h
    omega
  have hq4 : 4 ≤ q.length := by omega
  have hdlen : (p.drop 20).length = (q.drop 20).length := by
    simp [hlen]
  have hdlen2 : ((p.drop 20).drop 8).length = ((q.drop 20).drop 8).length := by
    simp [hlen]
  rw [decode_packet, decode_packet, if_pos ⟨hp4, hhdr⟩, if_pos ⟨hq4, e4 ▸ hhdr⟩]
  simp only [decode_command_echo_packet]
  rw [← hlen, ← hdlen, ← hdlen2, ← etag, ← ecmd, ← edata]

/-- A well-formed command-echo packet: header, padding, tag, `0x82` marker,
power command `0x08`, value `0x02`, zone pattern selecting zone 1. -/
def c10_packet_a : List Nat :=
  [0x18, 0x96, 0x18, 0x20] ++ List.replicate 16 0x00 ++ mcu_pas_tag
    ++ [0x82, 0x08, 0x02, 0x01, 0x02, 0x02, 0x02, 0x02, 0x02, 0x02]

/-- The same packet with the marker byte at offset 28 replaced by `0x99`. -/
def c10_packet_b : List Nat :=
  [0x18, 0x96, 0x18, 0x20] ++ List.replicate 16 0x00 ++ mcu_pas_tag
    ++ [0x99, 0x08, 0x02, 0x01, 0x02, 0x02, 0x02, 0x02, 0x02, 0x02]

/-- Concrete instantiation of `echo_marker_byte_ignored`: corrupting the
marker byte leaves the decoded Power event unchanged. -/
theorem echo_marker_byte_ignored_witness :
    decode_packet c10_packet_a (fun _ => none) = decode_packet c10_packet_b (fun _ => none)
    ∧ decode_packet c10_packet_b (fun _ => none) = some (.powerEv [1] true) :=
  ⟨echo_marker_byte_ignored c10_packet_a c10_packet_b (fun _ => none) (by decide)
      (by decide) (by decide) (by decide),
   by decide⟩

/-- Python `bytes.decode('ascii', errors='ignore')`: bytes below 128 map to
their character, others are dropped. -/
def asciiStr (bs : List Nat) : String :=
  String.mk (bs.filterMap fun b => if b < 128 then some (Char.ofNat b) else none)

/-- One Pascal-style length-prefixed string read at `pos`:
`data[pos+1 : pos+1+data[pos]]`, ASCII-decoded. -/
def parseStringAt (data : List Nat) (pos : Nat) : String :=
  asciiStr ((data.drop (pos + 1)).take (readByte data pos))

/-- The zone-name loop of `query_all_names`: up to `k` length-prefixed
strings starting at `pos`, stopping early (without failing) when the buffer
is exhausted; returns the names and the final read position. -/
def zone_names_loop (data : List Nat) : Nat → Nat → List String × Nat
  | pos, 0 => ([], pos)
  | pos, k + 1 =>
    if data.length ≤ pos then ([], pos)
    else if data.length < pos + 1 + readByte data pos then ([], pos + 1)
    else
      let rest := zone_names_loop data (pos + 1 + readByte data pos) (k)
      (parseStringAt data pos :: rest.1, rest.2)

/-- The input-name loop of `query_all_names`: like the zone loop, but when
the buffer runs out exactly at the last (8th) iteration the literal
`"Wi-Fi"` is appended before breaking. -/
def input_names_loop (data : List Nat) : Nat → Nat → List String
  | _, 0 => []
  | pos, k + 1 =>
    if data.length ≤ pos then (if k = 0 then ["Wi-Fi"] else [])
    else if data.length < pos + 1 + readByte data pos then (if k = 0 then ["Wi-Fi"] else [])
    else parseStringAt data pos :: input_names_loop data (pos + 1 + readByte data pos) (k)

/-- Number of input names the loop actually parses from the buffer. -/
def input_names_parsed_count (data : List Nat) : Nat → Nat → Nat
  | _, 0 => 0
  | pos, k + 1 =>
    if data.length ≤ pos then 0
    else if data.length < pos + 1 + readByte data pos then 0
    else input_names_parsed_count data (pos + 1 + readByte data pos) (k) + 1

/-- The padding loop of `query_all_names`: while fewer than 8 input names
exist, append `"Wi-Fi"` for the 8th slot and `"Input{n+1}"` for any other
slot `n`. -/
def pad_input_names : Nat → List String → List String
  | 0, names => names
  | fuel + 1, names =>
    if names.length < 8 then
      if names.length = 7 then pad_input_names fuel (names ++ ["Wi-Fi"])
      else pad_input_names fuel (names ++ ["Input" ++ toString (names.length + 1)])
    else names

/-- The name table assembled by `query_all_names`. -/
structure NameTable where
  device_name : String
  zone_names : List String
  input_names : List String
deriving Repr, DecidableEq

/-- The ALLNAMES string area: the response minus the 20-byte envelope header
and the 10-byte `MCU+PAS+` + command block. -/
def allnames_data (response : List Nat) : List Nat := (response.drop 20).drop 10

/-- Read position after the device name. -/
def device_name_end (data : List Nat) : Nat := 1 + readByte data 0

/-- Read position after the zone-name loop, where input names begin. -/
def input_names_start (data : List Nat) : Nat :=
  (zone_names_loop data (device_name_end data) 8).2

/-- `MatrioController.query_all_names`, parsing side (the spec's
`parse_names`): envelope and tag-block skips with their length checks, the
device name with its two failure checks, then the zone-name and input-name
loops and the input padding. -/
def query_all_names_model (response : List Nat) : Option NameTable :=
  if response.length < 20 then none
  else if (response.drop 20).length < 10 then none
  else
    let data := allnames_data response
    if data.length < 1 then none
    else if data.length < 1 + readByte data 0 then none
    else
      some
        { device_name := parseStringAt data 0
          zone_names := (zone_names_loop data (device_name_end data) 8).1
          input_names := pad_input_names 8 (input_names_loop data (input_names_start data) 8) }

/-- If the input-name loop exhausts the buffer after `n < k` names, its
output is those `n` names, plus a literal `"Wi-Fi"` exactly when the
exhaustion happened on the final iteration. -/
theorem input_names_loop_structure (data : List Nat) :
    ∀ k pos, input_names_parsed_count data pos k < k →
      ∃ pre : List String, pre.length = input_names_parsed_count data pos k ∧
        input_names_loop data pos k
          = pre ++ (if input_names_parsed_count data pos k + 1 = k then ["Wi-Fi"] else []) := by
  intro k
  induction k with
  | zero => intro pos h; omega
  | succ k ih =>
    intro pos h
    by_cases h1 : data.length ≤ pos
    · refine ⟨[], ?_, ?_⟩
      · simp [input_names_parsed_count, h1]
      · by_cases hk : k = 0 <;>
          simp [input_names_loop, input_names_parsed_count, h1, hk]
    · by_cases h2 : data.length < pos + 1 + readByte data pos
      · refine ⟨[], ?_, ?_⟩
        · simp [input_names_parsed_count, h1, h2]
        · by_cases hk : k = 0 <;>
            simp [input_names_loop, input_names_parsed_count, h1, h2, hk]
      · have hc : input_names_parsed_count data pos (k + 1)
            = input_names_parsed_count data (pos + 1 + readByte data pos) k + 1 := by
          simp [input_names_parsed_count, h1, h2]
        have hlt : input_names_parsed_count data (pos + 1 + readByte data pos) k < k := by
          omega
        obtain ⟨pre, hpre, hloop⟩ := ih (pos + 1 + readByte data pos) hlt
        refine ⟨parseStringAt data pos :: pre, ?_, ?_⟩
        · simp [hc, hpre]
        · have hl : input_names_loop data pos (k + 1)
              = parseStringAt data pos
                :: input_names_loop data (pos + 1 + readByte data pos) k := by
            simp [input_names_loop, h1, h2]
          rw [hl, hloop, hc]
          have hiff : (input_names_parsed_count data (pos + 1 + readByte data pos) k + 1 = k)
              ↔ (input_names_parsed_count data (pos + 1 + readByte data pos) k + 1 + 1 = k + 1) := by
            omega
          by_cases he : input_names_parsed_count data (pos + 1 + readByte data pos) k + 1 = k
          · rw [if_pos he, if_pos (hiff.mp he)]
            rfl
          · rw [if_neg he, if_neg (fun hx => he (hiff.mpr hx))]
            rfl

/-- Behaviour of the padding loop on a list of at most 8 names, given enough
fuel: the result has exactly 8 entries, keeps the existing entries, fills
slot 8 with `"Wi-Fi"` and every other empty slot `j` with `"Input{j+1}"`. -/
theorem pad_input_names_spec :
    ∀ fuel (L : List String), 8 ≤ fuel + L.length → L.length ≤ 8 →
      (pad_input_names fuel L).length = 8
      ∧ (∀ j, j < L.length → (pad_input_names fuel L).getD j "" = L.getD j "")
      ∧ (∀ j, L.length ≤ j → j < 7 →
          (pad_input_names fuel L).getD j "" = "Input" ++ toString (j + 1))
      ∧ (L.length ≤ 7 → (pad_input_names fuel L).getD 7 "" = "Wi-Fi") := by
  intro fuel
  induction fuel with
  | zero =>
    intro L h8 hle
    have : L.length = 8 := by omega
    refine ⟨this, fun j hj => rfl, fun j hj hj7 => by omega, fun h7 => by omega⟩
  | succ fuel ih =>
    intro L h8 hle
    by_cases hlt : L.length < 8
    · by_cases h7 : L.length = 7
      · have hpad : pad_input_names (fuel + 1) L = pad_input_names fuel (L ++ ["Wi-Fi"]) := by
          simp [pad_input_names, hlt, h7]
        have hlen' : (L ++ ["Wi-Fi"]).length = 8 := by simp [h7]
        obtain ⟨ih1, ih2, ih3, ih4⟩ := ih (L ++ ["Wi-Fi"]) (by omega) (by omega)
        refine ⟨hpad ▸ ih1, ?_, ?_, ?_⟩
        · intro j hj
          rw [hpad, ih2 j (by omega), List.getD_append _ _ _ _ (by omega)]
        · intro j hj hj7
          omega
        · intro _
          rw [hpad, ih2 7 (by omega), List.getD_append_right _ _ _ _ (by omega), h7]
          rfl
      · have hpad : pad_input_names (fuel + 1) L
            = pad_input_names fuel (L ++ ["Input" ++ toString (L.length + 1)]) := by
          simp [pad_input_names, hlt, h7]
        have hlen' : (L ++ ["Input" ++ toString (L.length + 1)]).length = L.length + 1 := by
          simp
        obtain ⟨ih1, ih2, ih3, ih4⟩ := ih (L ++ ["Input" ++ toString (L.length + 1)])
          (by omega) (by omega)
        refine ⟨hpad ▸ ih1, ?_, ?_, ?_⟩
        · intro j hj
          rw [hpad, ih2 j (by omega), List.getD_append _ _ _ _ (by omega)]
        · intro j hj hj7
          rcases Nat.eq_or_lt_of_le hj with he | hgt
          · rw [hpad, ih2 j (by omega), ← he, List.getD_append_right _ _ _ _ (by omega),
              Nat.sub_self]
            rfl
          · rw [hpad]
            exact ih3 j (by omega) hj7
        · intro h7'
          rw [hpad]
          exact ih4 (by omega)
    · have hpad : pad_input_names (fuel + 1) L = L := by
        simp [pad_input_names, hlt]
      have h8' : L.length = 8 := by omega
      refine ⟨by rw [hpad, h8'], fun j hj => by rw [hpad], fun j hj hj7 => by omega,
        fun h7 => by omega⟩


/-- **C8.** For every ALLNAMES buffer that parses but whose length-prefixed
string sequence is exhausted before all 8 input names are read, the parser
stops early without failing and returns exactly 8 input names, with the
missing slot 8 (index 7) defaulting to the literal `"Wi-Fi"` and every other
missing slot `n` (1-based, index `n-1`) defaulting to `"Input{n}"`. -/
theorem parse_names_truncated_defaults (response : List Nat) (t : NameTable)
    (hdec : query_all_names_model response = some t)
    (hex : input_names_parsed_count (allnames_data response)
        (input_names_start (allnames_data response)) 8 < 8) :
    t.input_names.length = 8
    ∧ t.input_names.getD 7 "" = "Wi-Fi"
    ∧ ∀ j, input_names_parsed_count (allnames_data response)
          (input_names_start (allnames_data response)) 8 ≤ j → j < 7 →
        t.input_names.getD j "" = "Input" ++ toString (j + 1) := by
  have ht : t.input_names
      = pad_input_names 8 (input_names_loop (allnames_data response)
          (input_names_start (allnames_data response)) 8) := by
    simp only [query_all_names_model] at hdec
    split at hdec
    · simp at hdec
    · split at hdec
      · simp at hdec
      · split at hdec
        · simp at hdec
        · split at hdec
          · simp at hdec
          · rw [← Option.some.inj hdec]
  obtain ⟨pre, hpre, hloop⟩ := input_names_loop_structure (allnames_data response) 8
    (input_names_start (allnames_data response)) hex
  have hLlen : (input_names_loop (allnames_data response)
      (input_names_start (allnames_data response)) 8).length
      = input_names_parsed_count (allnames_data response)
          (input_names_start (allnames_data response)) 8
        + (if input_names_parsed_count (allnames_data response)
            (input_names_start (allnames_data response)) 8 + 1 = 8 then 1 else 0) := by
    rw [hloop, List.length_append, hpre]
    split <;> rfl
  have hL8 : (input_names_loop (allnames_data response)
      (input_names_start (allnames_data response)) 8).length ≤ 8 := by
    rw [hLlen]
    split <;> omega
  obtain ⟨p1, p2, p3, p4⟩ := pad_input_names_spec 8
    (input_names_loop (allnames_data response)
      (input_names_start (allnames_data response)) 8) (by omega) hL8
  refine ⟨by rw [ht]; exact p1, ?_, ?_⟩
  · by_cases h7 : input_names_parsed_count (allnames_data response)
        (input_names_start (allnames_data response)) 8 + 1 = 8
    · have hL : (input_names_loop (allnames_data response)
          (input_names_start (allnames_data response)) 8).length = 8 := by
        rw [hLlen, if_pos h7]
        omega
      rw [ht, p2 7 (by omega), hloop, if_pos h7,
        List.getD_append_right _ _ _ _ (by omega)]
      have h70 : 7 - pre.length = 0 := by omega
      rw [h70]
      rfl
    · have hL : (input_names_loop (allnames_data response)
          (input_names_start (allnames_data response)) 8).length
          = input_names_parsed_count (allnames_data response)
              (input_names_start (allnames_data response)) 8 := by
        rw [hLlen, if_neg h7]
        omega
      rw [ht]
      exact p4 (by omega)
  · intro j hj hj7
    by_cases h7 : input_names_parsed_count (allnames_data response)
        (input_names_start (allnames_data response)) 8 + 1 = 8
    · omega
    · have hL : (input_names_loop (allnames_data response)
          (input_names_start (allnames_data response)) 8).length
          = input_names_parsed_count (allnames_data response)
              (input_names_start (allnames_data response)) 8 := by
        rw [hLlen, if_neg h7]
        omega
      rw [ht]
      exact p3 j (by omega) hj7

/-- A minimal truncated ALLNAMES response: 20-byte envelope, 10-byte tag
block, then a single byte `0x00` (an empty device name) and nothing else, so
no zone or input names can be read. -/
def c8_response : List Nat :=
  List.replicate 20 0x00 ++ List.replicate 10 0x00 ++ [0x00]

/-- Concrete instantiation of `parse_names_truncated_defaults` on the
minimal truncated response, whose 8 input-name slots are all defaulted. -/
theorem parse_names_truncated_defaults_witness :
    (NameTable.mk "" [] ["Input1", "Input2", "Input3", "Input4", "Input5",
        "Input6", "Input7", "Wi-Fi"]).input_names.length = 8
    ∧ (NameTable.mk "" [] ["Input1", "Input2", "Input3", "Input4", "Input5",
        "Input6", "Input7", "Wi-Fi"]).input_names.getD 7 "" = "Wi-Fi" :=
  ⟨(parse_names_truncated_defaults c8_response
      (NameTable.mk "" [] ["Input1", "Input2", "Input3", "Input4", "Input5",
        "Input6", "Input7", "Wi-Fi"]) (by decide) (by decide)).1,
   (parse_names_truncated_defaults c8_response
      (NameTable.mk "" [] ["Input1", "Input2", "Input3", "Input4", "Input5",
        "Input6", "Input7", "Wi-Fi"]) (by decide) (by decide)).2.1⟩
